import Mathlib

/-!
Verification development for `backend/utils/summarize.py`.

The module under study validates access to a meeting transcript through a
chain of database lookups, requests a summary from an external completion
API, and persists the result.  We give a shallow embedding:

* the database session is modelled as an immutable snapshot `DB`
  (lists of records); the lookup helpers of `db_control.crud` become
  `List.find?` over those lists;
* one orchestrator run sees two snapshots, `dbV` for the three validation
  reads and `dbW` for the re-fetch and the write, because the Python
  session gives no isolation: data may change between queries (this is the
  only way the re-fetch can see a vanished transcript);
* exceptions become an `Except PyExc` result, where `PyExc.http` is
  FastAPI's `HTTPException` (status code and detail string) and
  `PyExc.other` is any other Python exception identified by its `str`;
* side effects are recorded in traces: `ReadQuery` for each crud lookup
  in source order, `LogEntry` for each `logger` call (structured, carrying
  the ids that the f-string of the source interpolates), the list of
  completion requests sent, and the list of `create_summary` writes;
* Python's float `0.7` only occurs as an inert configuration value, so we
  model it as the rational `7/10`.
-/

/-- A user id as Python sees it before `str(...)` is applied: the owner id
stored on a minutes record may be an integer while the requester id is a
string, and the source compares their string forms. -/
inductive Uid where
  | int (n : Int) : Uid
  | str (s : String) : Uid
deriving DecidableEq, Repr

/-- Python `str(...)` on a user id: decimal rendering for integers,
identity for strings. -/
def pyStr : Uid → String
  | .int n => toString n
  | .str s => s

/-- A transcript record.  `content` and `text` are `Option` because the
source probes attribute presence with `hasattr` and falls back from
`content` to `text`. -/
structure Transcript where
  id : Nat
  video_id : Nat
  content : Option String
  text : Option String
deriving DecidableEq, Repr

/-- A video record referencing its minutes document. -/
structure Video where
  id : Nat
  minutes_id : Nat
deriving DecidableEq, Repr

/-- A minutes document owned by a user. -/
structure MinutesDocument where
  id : Nat
  user_id : Uid
deriving DecidableEq, Repr

/-- A summary record as returned by `crud.create_summary`. -/
structure Summary where
  id : Nat
  transcript_id : Nat
  content : String
deriving DecidableEq, Repr

/-- A database snapshot: the four entity tables. -/
structure DB where
  transcripts : List Transcript
  videos : List Video
  minutes : List MinutesDocument
  summaries : List Summary
deriving DecidableEq, Repr

/-- `crud.get_transcript_by_id(db, id)`: first transcript with that id,
`none` when absent (Python `None`, falsy). -/
def get_transcript_by_id (db : DB) (i : Nat) : Option Transcript :=
  db.transcripts.find? (fun t => t.id == i)

/-- `crud.get_video_by_id(db, id)`. -/
def get_video_by_id (db : DB) (i : Nat) : Option Video :=
  db.videos.find? (fun v => v.id == i)

/-- `crud.get_minutes(db, id)`. -/
def get_minutes (db : DB) (i : Nat) : Option MinutesDocument :=
  db.minutes.find? (fun m => m.id == i)

/-- Modelled from the spec: `createSummary(session, transcriptId, text) ->
Summary` with create-or-update semantics, one summary per transcript.  The
implementation lives in `db_control.crud`, which is not part of this
repository's sources; the spec states it stores the given text keyed by the
transcript id and returns the stored record.  Returns the record together
with the updated snapshot. -/
def create_summary (db : DB) (tid : Nat) (text : String) : Summary × DB :=
  match db.summaries.find? (fun s => s.transcript_id == tid) with
  | some s =>
      let s2 : Summary := { s with content := text }
      (s2, { db with
              summaries := db.summaries.map
                (fun x => if x.transcript_id == tid then s2 else x) })
  | none =>
      let s2 : Summary :=
        { id := db.summaries.length + 1, transcript_id := tid, content := text }
      (s2, { db with summaries := db.summaries ++ [s2] })

/-- A Python exception: either FastAPI's `HTTPException` (status, detail)
or any other exception carrying its `str(e)` message. -/
inductive PyExc where
  | http (status : Nat) (detail : String) : PyExc
  | other (msg : String) : PyExc
deriving DecidableEq, Repr

/-- One crud lookup, recorded in source order with the id it was asked. -/
inductive ReadQuery where
  | qTranscript (i : Nat) : ReadQuery
  | qVideo (i : Nat) : ReadQuery
  | qMinutes (i : Nat) : ReadQuery
deriving DecidableEq, Repr

/-- One `logger` call of the source, structured: each constructor carries
exactly the ids that the corresponding f-string interpolates. -/
inductive LogEntry where
  | infoRequest (transcript_id : Nat) (user_id : Uid) : LogEntry
  | errTranscriptNotFound (transcript_id : Nat) : LogEntry
  | errMinutesNotFound (minutes_id : Nat) : LogEntry
  | errForbidden (minutes_user_id : Uid) (request_user_id : Uid) : LogEntry
  | infoGenerated : LogEntry
  | infoSummaryCreated (summary_id : Nat) : LogEntry
  | errGeneric (msg : String) : LogEntry
deriving DecidableEq, Repr

/-- Detail string of the 404 raised when the transcript is absent. -/
def detailTranscriptNotFound : String := "指定された文字起こしIDのデータが見つかりません"

/-- Detail string of the 404 raised when the video is absent. -/
def detailVideoNotFound : String := "動画が見つかりません"

/-- Detail string of the 404 raised when the minutes record is absent. -/
def detailMinutesNotFound : String := "議事録データが見つかりません"

/-- Detail string of the 403 raised on an ownership mismatch. -/
def detailForbidden : String := "この議事録へのアクセス権限がありません"

/-- Outcome of `validate_access_permissions`: the crud reads it performed,
the log entries it emitted, and its result (`ok` means no exception). -/
structure ValResult where
  reads : List ReadQuery
  logs : List LogEntry
  result : Except PyExc Unit
deriving Repr

/-- `validate_access_permissions(db, transcript_id, user_id)`: three
short-circuiting lookups (transcript, its video, the video's minutes) each
failing with a 404, then a string comparison of the minutes owner id with
the requester id failing with a 403.  Mirrors the source line by line; the
video-absent branch of the source raises without logging. -/
def validate_access_permissions (db : DB) (transcript_id : Nat) (user_id : Uid) :
    ValResult :=
  match get_transcript_by_id db transcript_id with
  | none =>
      ⟨[.qTranscript transcript_id],
       [.errTranscriptNotFound transcript_id],
       .error (.http 404 detailTranscriptNotFound)⟩
  | some transcript =>
      match get_video_by_id db transcript.video_id with
      | none =>
          ⟨[.qTranscript transcript_id, .qVideo transcript.video_id],
           [],
           .error (.http 404 detailVideoNotFound)⟩
      | some video =>
          match get_minutes db video.minutes_id with
          | none =>
              ⟨[.qTranscript transcript_id, .qVideo transcript.video_id,
                .qMinutes video.minutes_id],
               [.errMinutesNotFound video.minutes_id],
               .error (.http 404 detailMinutesNotFound)⟩
          | some minutes =>
              if pyStr minutes.user_id ≠ pyStr user_id then
                ⟨[.qTranscript transcript_id, .qVideo transcript.video_id,
                  .qMinutes video.minutes_id],
                 [.errForbidden minutes.user_id user_id],
                 .error (.http 403 detailForbidden)⟩
              else
                ⟨[.qTranscript transcript_id, .qVideo transcript.video_id,
                  .qMinutes video.minutes_id],
                 [],
                 .ok ()⟩

/-- The message carried by one completion choice (`choice.message`). -/
structure ChoiceMessage where
  content : String
deriving DecidableEq, Repr

/-- One completion choice (`response.choices[i]`). -/
structure Choice where
  message : ChoiceMessage
deriving DecidableEq, Repr

/-- Behaviour of one provider call: either a response with its list of
choices, or an exception whose `str` is `msg` (timeout, auth failure,
quota, malformed response, ...). -/
inductive ProviderResult where
  | ok (choices : List Choice) : ProviderResult
  | exn (msg : String) : ProviderResult
deriving DecidableEq, Repr

/-- The request sent by `client.chat.completions.create`: model name, the
(role, content) message list, temperature and output-token ceiling. -/
structure ChatRequest where
  model : String
  messages : List (String × String)
  temperature : ℚ
  max_tokens : Nat
deriving DecidableEq, Repr

/-- `os.getenv(key, default)` over an environment `env`. -/
def getenv (env : String → Option String) (key dflt : String) : String :=
  (env key).getD dflt

/-- The fixed system instruction of the source (verbatim). -/
def systemInstruction : String :=
  "あなたは会議の議事録を要約する専門家です。与えられた文字起こし文章を、重要なポイントを漏らさず、簡潔にマークダウン記法で要約してください。見出しには`### を使ってください。それ以上の大きな見出し # や ## は使わないでください。"

/-- The text the user message puts in front of the transcript content. -/
def userInstructionHead : String := "以下の会議の文字起こしを要約してください：\n\n"

/-- The text prepended to an underlying error message by the
`要約の生成中にエラーが発生しました` handlers (both in the generator and in the
orchestrator, which use the same f-string). -/
def summaryErrorHead : String := "要約の生成中にエラーが発生しました: "

/-- The completion request built by `generate_summary_content` for a given
transcript text: deployment name from the environment (default `gpt-4.1`),
the fixed system instruction, the user message wrapping the transcript,
temperature `0.7`, `max_tokens` 1000. -/
def mkChatRequest (env : String → Option String) (transcript_content : String) :
    ChatRequest :=
  { model := getenv env "AZURE_OPENAI_DEPLOYMENT_CHAT" "gpt-4.1",
    messages := [("system", systemInstruction),
                 ("user", userInstructionHead ++ transcript_content)],
    temperature := 7/10,
    max_tokens := 1000 }

/-- Outcome of `generate_summary_content`: the completion requests sent,
the log entries emitted, and the result. -/
structure GenResult where
  apiCalls : List ChatRequest
  logs : List LogEntry
  result : Except PyExc String
deriving Repr

/-- `generate_summary_content(transcript_content)`: sends one completion
request and returns `response.choices[0].message.content`.  The `try`
block catches every exception — a provider exception, and also the
`IndexError` when the choice list is empty — logs
`summaryErrorHead ++ str(e)` and re-raises it as an `HTTPException` with
status 500 and that same string as detail. -/
def generate_summary_content (provider : ChatRequest → ProviderResult)
    (env : String → Option String) (transcript_content : String) : GenResult :=
  let req := mkChatRequest env transcript_content
  match provider req with
  | .exn e =>
      let m := summaryErrorHead ++ e
      ⟨[req], [.errGeneric m], .error (.http 500 m)⟩
  | .ok [] =>
      let m := summaryErrorHead ++ "list index out of range"
      ⟨[req], [.errGeneric m], .error (.http 500 m)⟩
  | .ok (c :: _) =>
      ⟨[req], [], .ok c.message.content⟩

/-- `transcript.content if hasattr(transcript, 'content') else
transcript.text`, applied to the result of the orchestrator's re-fetch.
When the re-fetch returned `None`, `hasattr(None, ...)` is false and
`None.text` raises an `AttributeError`; likewise when neither field exists
on the record.  (Python quotes the attribute name in the message; we keep
the words only.) -/
def extract_content : Option Transcript → Except PyExc String
  | none => .error (.other "NoneType object has no attribute text")
  | some t =>
      match t.content with
      | some c => .ok c
      | none =>
          match t.text with
          | some s => .ok s
          | none => .error (.other "Transcript object has no attribute text")

/-- Outcome of one orchestrator run: crud reads, log entries, completion
requests sent, `create_summary` calls performed (transcript id and text
passed), the final external snapshot, and the result. -/
structure RunResult where
  reads : List ReadQuery
  logs : List LogEntry
  apiCalls : List ChatRequest
  writes : List (Nat × String)
  db : DB
  result : Except PyExc String
deriving Repr

/-- Body of the `try` block of `process_summary_generation`: validate
(against the snapshot `dbV`), re-fetch the transcript (against the later
snapshot `dbW`), extract its text, generate, persist, return the stored
record's content.  Failures abort the sequence where they occur. -/
def run_inner (provider : ChatRequest → ProviderResult)
    (env : String → Option String) (dbV dbW : DB)
    (transcript_id : Nat) (user_id : Uid) : RunResult :=
  let v := validate_access_permissions dbV transcript_id user_id
  match v.result with
  | .error e => ⟨v.reads, v.logs, [], [], dbW, .error e⟩
  | .ok _ =>
      let reads := v.reads ++ [.qTranscript transcript_id]
      match extract_content (get_transcript_by_id dbW transcript_id) with
      | .error e => ⟨reads, v.logs, [], [], dbW, .error e⟩
      | .ok ct =>
          let g := generate_summary_content provider env ct
          match g.result with
          | .error e => ⟨reads, v.logs ++ g.logs, g.apiCalls, [], dbW, .error e⟩
          | .ok sc =>
              let p := create_summary dbW transcript_id sc
              ⟨reads,
               v.logs ++ g.logs ++ [.infoGenerated, .infoSummaryCreated p.1.id],
               g.apiCalls, [(transcript_id, sc)], p.2, .ok p.1.content⟩

/-- `process_summary_generation(db, transcript_id, user_id)`: logs the
request, runs the `try` body, and applies the source's two `except`
clauses: an `HTTPException` passes through unchanged, any other exception
is logged and re-raised as a 500 whose detail is `summaryErrorHead`
followed by the original message. -/
def process_summary_generation (provider : ChatRequest → ProviderResult)
    (env : String → Option String) (dbV dbW : DB)
    (transcript_id : Nat) (user_id : Uid) : RunResult :=
  let r := run_inner provider env dbV dbW transcript_id user_id
  let logs0 := LogEntry.infoRequest transcript_id user_id :: r.logs
  match r.result with
  | .ok s => { r with logs := logs0, result := .ok s }
  | .error (.http s d) => { r with logs := logs0, result := .error (.http s d) }
  | .error (.other m) =>
      { r with
        logs := logs0 ++ [.errGeneric (summaryErrorHead ++ m)],
        result := .error (.http 500 (summaryErrorHead ++ m)) }

/-- Owner / matching requester id of the concrete scenarios. -/
def uidA : Uid := .str "u1"

/-- A requester id different from the owner id. -/
def uidB : Uid := .str "u2"

/-- The transcript of the spec's concrete scenario. -/
def trBudget : Transcript := ⟨1, 10, some "Meeting about budget.", none⟩

/-- Its video, referencing minutes 20. -/
def vid10 : Video := ⟨10, 20⟩

/-- Its minutes document, owned by `uidA`. -/
def min20 : MinutesDocument := ⟨20, uidA⟩

/-- A snapshot with no records at all. -/
def dbEmpty : DB := ⟨[], [], [], []⟩

/-- A snapshot holding the full resolvable chain. -/
def dbFull : DB := ⟨[trBudget], [vid10], [min20], []⟩

/-- Transcript present, its video absent. -/
def dbNoVideo : DB := ⟨[trBudget], [], [min20], []⟩

/-- Transcript and video present, minutes absent. -/
def dbNoMinutes : DB := ⟨[trBudget], [vid10], [], []⟩

/-- The stubbed provider output of the spec's concrete scenario. -/
def budgetSummary : String := "### Summary\nBudget discussed."

/-- A provider stub answering every request with one fixed choice. -/
def stubProvider : ChatRequest → ProviderResult := fun _ => .ok [⟨⟨budgetSummary⟩⟩]

/-- A provider stub raising on every request. -/
def exnProvider : ChatRequest → ProviderResult := fun _ => .exn "timeout"

/-- An empty environment: every `os.getenv` falls back to its default. -/
def envEmpty : String → Option String := fun _ => none

/-- `create_summary` returns a record holding exactly the text it was
given. -/
theorem create_summary_content_eq (db : DB) (tid : Nat) (x : String) :
    (create_summary db tid x).1.content = x := by
  cases hfind : db.summaries.find? (fun s => s.transcript_id == tid) <;>
    simp [create_summary, hfind]

/-- `create_summary` touches only the summaries table. -/
theorem create_summary_frame (db : DB) (tid : Nat) (x : String) :
    (create_summary db tid x).2.transcripts = db.transcripts ∧
    (create_summary db tid x).2.videos = db.videos ∧
    (create_summary db tid x).2.minutes = db.minutes := by
  cases hfind : db.summaries.find? (fun s => s.transcript_id == tid) <;>
    simp [create_summary, hfind]

/-- Once the full chain resolves, the validator reduces to the ownership
test, with all three reads performed. -/
theorem validate_full_chain (db : DB) (tid : Nat) (uid : Uid)
    (t : Transcript) (v : Video) (m : MinutesDocument)
    (ht : get_transcript_by_id db tid = some t)
    (hv : get_video_by_id db t.video_id = some v)
    (hm : get_minutes db v.minutes_id = some m) :
    validate_access_permissions db tid uid =
      if pyStr m.user_id ≠ pyStr uid then
        ⟨[.qTranscript tid, .qVideo t.video_id, .qMinutes v.minutes_id],
         [.errForbidden m.user_id uid], .error (.http 403 detailForbidden)⟩
      else
        ⟨[.qTranscript tid, .qVideo t.video_id, .qMinutes v.minutes_id],
         [], .ok ()⟩ := by
  simp only [validate_access_permissions, ht, hv, hm]

/-- A run whose validation fails aborts at once: only the validator's
reads and logs, no call, no write, snapshot untouched, error passed up. -/
theorem run_inner_val_error (provider : ChatRequest → ProviderResult)
    (env : String → Option String) (dbV dbW : DB) (tid : Nat) (uid : Uid)
    (e : PyExc)
    (h : (validate_access_permissions dbV tid uid).result = .error e) :
    run_inner provider env dbV dbW tid uid =
      ⟨(validate_access_permissions dbV tid uid).reads,
       (validate_access_permissions dbV tid uid).logs,
       [], [], dbW, .error e⟩ := by
  simp only [run_inner, h]

/-- A run whose content extraction fails aborts before any call or
write. -/
theorem run_inner_extract_error (provider : ChatRequest → ProviderResult)
    (env : String → Option String) (dbV dbW : DB) (tid : Nat) (uid : Uid)
    (e : PyExc)
    (h : (validate_access_permissions dbV tid uid).result = .ok ())
    (hx : extract_content (get_transcript_by_id dbW tid) = .error e) :
    run_inner provider env dbV dbW tid uid =
      ⟨(validate_access_permissions dbV tid uid).reads ++ [.qTranscript tid],
       (validate_access_permissions dbV tid uid).logs,
       [], [], dbW, .error e⟩ := by
  simp only [run_inner, h, hx]

/-- A run whose generation step fails sends its calls but writes
nothing. -/
theorem run_inner_gen_error (provider : ChatRequest → ProviderResult)
    (env : String → Option String) (dbV dbW : DB) (tid : Nat) (uid : Uid)
    (ct : String) (e : PyExc)
    (h : (validate_access_permissions dbV tid uid).result = .ok ())
    (hx : extract_content (get_transcript_by_id dbW tid) = .ok ct)
    (hg : (generate_summary_content provider env ct).result = .error e) :
    run_inner provider env dbV dbW tid uid =
      ⟨(validate_access_permissions dbV tid uid).reads ++ [.qTranscript tid],
       (validate_access_permissions dbV tid uid).logs ++
         (generate_summary_content provider env ct).logs,
       (generate_summary_content provider env ct).apiCalls,
       [], dbW, .error e⟩ := by
  simp only [run_inner, h, hx, hg]

/-- A fully successful run: one write of the generated text, and the
stored record's content is returned. -/
theorem run_inner_success (provider : ChatRequest → ProviderResult)
    (env : String → Option String) (dbV dbW : DB) (tid : Nat) (uid : Uid)
    (ct sc : String)
    (h : (validate_access_permissions dbV tid uid).result = .ok ())
    (hx : extract_content (get_transcript_by_id dbW tid) = .ok ct)
    (hg : (generate_summary_content provider env ct).result = .ok sc) :
    run_inner provider env dbV dbW tid uid =
      ⟨(validate_access_permissions dbV tid uid).reads ++ [.qTranscript tid],
       (validate_access_permissions dbV tid uid).logs ++
         (generate_summary_content provider env ct).logs ++
         [.infoGenerated, .infoSummaryCreated (create_summary dbW tid sc).1.id],
       (generate_summary_content provider env ct).apiCalls,
       [(tid, sc)], (create_summary dbW tid sc).2,
       .ok (create_summary dbW tid sc).1.content⟩ := by
  simp only [run_inner, h, hx, hg]

/-- The two `except` clauses only relabel logs and the result: reads,
calls, writes and the final snapshot of a run are those of the `try`
body. -/
theorem process_run_inner_frame (provider : ChatRequest → ProviderResult)
    (env : String → Option String) (dbV dbW : DB) (tid : Nat) (uid : Uid) :
    (process_summary_generation provider env dbV dbW tid uid).reads =
      (run_inner provider env dbV dbW tid uid).reads ∧
    (process_summary_generation provider env dbV dbW tid uid).apiCalls =
      (run_inner provider env dbV dbW tid uid).apiCalls ∧
    (process_summary_generation provider env dbV dbW tid uid).writes =
      (run_inner provider env dbV dbW tid uid).writes ∧
    (process_summary_generation provider env dbV dbW tid uid).db =
      (run_inner provider env dbV dbW tid uid).db := by
  cases hr : (run_inner provider env dbV dbW tid uid).result with
  | ok s => simp [process_summary_generation, hr]
  | error e => cases e <;> simp [process_summary_generation, hr]

/-- A domain (`HTTPException`) failure of the `try` body passes through
the orchestrator unchanged. -/
theorem process_http_passthrough (provider : ChatRequest → ProviderResult)
    (env : String → Option String) (dbV dbW : DB) (tid : Nat) (uid : Uid)
    (s : Nat) (d : String)
    (h : (run_inner provider env dbV dbW tid uid).result = .error (.http s d)) :
    (process_summary_generation provider env dbV dbW tid uid).result =
      .error (.http s d) ∧
    (process_summary_generation provider env dbV dbW tid uid).logs =
      .infoRequest tid uid :: (run_inner provider env dbV dbW tid uid).logs := by
  simp [process_summary_generation, h]

/-- A non-domain failure of the `try` body is logged and reclassified as
a 500 `HTTPException` whose detail wraps the original message. -/
theorem process_other_wrapped (provider : ChatRequest → ProviderResult)
    (env : String → Option String) (dbV dbW : DB) (tid : Nat) (uid : Uid)
    (m : String)
    (h : (run_inner provider env dbV dbW tid uid).result = .error (.other m)) :
    (process_summary_generation provider env dbV dbW tid uid).result =
      .error (.http 500 (summaryErrorHead ++ m)) ∧
    (process_summary_generation provider env dbV dbW tid uid).logs =
      (.infoRequest tid uid :: (run_inner provider env dbV dbW tid uid).logs) ++
        [.errGeneric (summaryErrorHead ++ m)] := by
  simp [process_summary_generation, h]

/-- A successful `try` body yields its value unchanged. -/
theorem process_ok_result (provider : ChatRequest → ProviderResult)
    (env : String → Option String) (dbV dbW : DB) (tid : Nat) (uid : Uid)
    (s : String)
    (h : (run_inner provider env dbV dbW tid uid).result = .ok s) :
    (process_summary_generation provider env dbV dbW tid uid).result = .ok s := by
  simp [process_summary_generation, h]

/-- C1: for every database state and every (transcript id, user id) pair,
the validator performs its lookups in order transcript → video → minutes
and fails with 404 when the transcript is absent, 404 when the video is
absent, 404 when the minutes record is absent, and 403 on an owner
mismatch; the recorded read trace shows no lookup is performed after an
earlier one fails. -/
theorem claim_c1_validator_shortcircuit (db : DB) (tid : Nat) (uid : Uid) :
    (get_transcript_by_id db tid = none →
      validate_access_permissions db tid uid =
        ⟨[.qTranscript tid], [.errTranscriptNotFound tid],
         .error (.http 404 detailTranscriptNotFound)⟩) ∧
    (∀ t, get_transcript_by_id db tid = some t →
      get_video_by_id db t.video_id = none →
      validate_access_permissions db tid uid =
        ⟨[.qTranscript tid, .qVideo t.video_id], [],
         .error (.http 404 detailVideoNotFound)⟩) ∧
    (∀ t v, get_transcript_by_id db tid = some t →
      get_video_by_id db t.video_id = some v →
      get_minutes db v.minutes_id = none →
      validate_access_permissions db tid uid =
        ⟨[.qTranscript tid, .qVideo t.video_id, .qMinutes v.minutes_id],
         [.errMinutesNotFound v.minutes_id],
         .error (.http 404 detailMinutesNotFound)⟩) ∧
    (∀ t v m, get_transcript_by_id db tid = some t →
      get_video_by_id db t.video_id = some v →
      get_minutes db v.minutes_id = some m →
      pyStr m.user_id ≠ pyStr uid →
      validate_access_permissions db tid uid =
        ⟨[.qTranscript tid, .qVideo t.video_id, .qMinutes v.minutes_id],
         [.errForbidden m.user_id uid],
         .error (.http 403 detailForbidden)⟩) := by
  refine ⟨fun h => ?_, fun t ht hv => ?_, fun t v ht hv hm => ?_,
          fun t v m ht hv hm hne => ?_⟩
  · simp only [validate_access_permissions, h]
  · simp only [validate_access_permissions, ht, hv]
  · simp only [validate_access_permissions, ht, hv, hm]
  · rw [validate_full_chain db tid uid t v m ht hv hm, if_pos hne]

/-- Witness for C1: each of the four failure branches exercised on a
concrete snapshot. -/
theorem claim_c1_validator_shortcircuit_witness :
    validate_access_permissions dbEmpty 1 uidA =
      ⟨[.qTranscript 1], [.errTranscriptNotFound 1],
       .error (.http 404 detailTranscriptNotFound)⟩ ∧
    validate_access_permissions dbNoVideo 1 uidA =
      ⟨[.qTranscript 1, .qVideo 10], [],
       .error (.http 404 detailVideoNotFound)⟩ ∧
    validate_access_permissions dbNoMinutes 1 uidA =
      ⟨[.qTranscript 1, .qVideo 10, .qMinutes 20],
       [.errMinutesNotFound 20], .error (.http 404 detailMinutesNotFound)⟩ ∧
    validate_access_permissions dbFull 1 uidB =
      ⟨[.qTranscript 1, .qVideo 10, .qMinutes 20],
       [.errForbidden uidA uidB], .error (.http 403 detailForbidden)⟩ := by
  refine ⟨(claim_c1_validator_shortcircuit dbEmpty 1 uidA).1 rfl, ?_, ?_, ?_⟩
  · exact (claim_c1_validator_shortcircuit dbNoVideo 1 uidA).2.1 trBudget rfl rfl
  · exact (claim_c1_validator_shortcircuit dbNoMinutes 1 uidA).2.2.1
      trBudget vid10 rfl rfl rfl
  · exact (claim_c1_validator_shortcircuit dbFull 1 uidB).2.2.2
      trBudget vid10 min20 rfl rfl rfl (by decide)

/-- C2: on a resolvable chain transcript → video → minutes, the validator
raises no exception exactly when the string forms of the owner id and the
requester id agree, and on agreement the orchestrator proceeds past
validation: it performs the fourth read (the re-fetch). -/
theorem claim_c2_owner_match (db : DB) (tid : Nat) (uid : Uid)
    (t : Transcript) (v : Video) (m : MinutesDocument)
    (ht : get_transcript_by_id db tid = some t)
    (hv : get_video_by_id db t.video_id = some v)
    (hm : get_minutes db v.minutes_id = some m) :
    ((validate_access_permissions db tid uid).result = .ok () ↔
      pyStr m.user_id = pyStr uid) ∧
    (pyStr m.user_id = pyStr uid →
      ∀ (provider : ChatRequest → ProviderResult)
        (env : String → Option String) (dbW : DB),
        (process_summary_generation provider env db dbW tid uid).reads =
          [.qTranscript tid, .qVideo t.video_id, .qMinutes v.minutes_id,
           .qTranscript tid]) := by
  have hfull := validate_full_chain db tid uid t v m ht hv hm
  constructor
  · rw [hfull]
    by_cases h : pyStr m.user_id = pyStr uid
    · simp [h]
    · simp [h]
  · intro h provider env dbW
    have hok : validate_access_permissions db tid uid =
        ⟨[.qTranscript tid, .qVideo t.video_id, .qMinutes v.minutes_id],
         [], .ok ()⟩ := by
      rw [hfull, if_neg (by simpa using h)]
    rcases process_run_inner_frame provider env db dbW tid uid with ⟨hre, -, -, -⟩
    rw [hre]
    rcases hx : extract_content (get_transcript_by_id dbW tid) with e | ct
    · rw [run_inner_extract_error provider env db dbW tid uid e (by rw [hok]) hx]
      simp [hok]
    · rcases hg : (generate_summary_content provider env ct).result with e | sc
      · rw [run_inner_gen_error provider env db dbW tid uid ct e (by rw [hok]) hx hg]
        simp [hok]
      · rw [run_inner_success provider env db dbW tid uid ct sc (by rw [hok]) hx hg]
        simp [hok]

/-- Witness for C2: on the concrete full chain, matching requester `uidA`
passes validation and the run re-fetches the transcript. -/
theorem claim_c2_owner_match_witness :
    ((validate_access_permissions dbFull 1 uidA).result = .ok () ↔
      pyStr min20.user_id = pyStr uidA) ∧
    (process_summary_generation stubProvider envEmpty dbFull dbFull 1 uidA).reads =
      [.qTranscript 1, .qVideo 10, .qMinutes 20, .qTranscript 1] := by
  have := claim_c2_owner_match dbFull 1 uidA trBudget vid10 min20 rfl rfl rfl
  exact ⟨this.1, this.2 rfl stubProvider envEmpty dbFull⟩

/-- C8 counterexample: a failing run of the validator with no log entry
at all.  With the video absent, the validator raises its 404 yet emits no
log, so the claim that every failure case logs its identifying ids is
false on the code. -/
theorem claim_c8_counterexample :
    (validate_access_permissions dbNoVideo 1 uidA).result =
      .error (.http 404 detailVideoNotFound) ∧
    (validate_access_permissions dbNoVideo 1 uidA).logs = [] := ⟨rfl, rfl⟩

/-- C8 amended: in the transcript-absent, minutes-absent and
owner-mismatch failure cases a log entry carrying the identifying ids of
that case is emitted before the failure is raised; the video-absent
failure raises its 404 without emitting any log entry. -/
theorem claim_c8_amended_logging (db : DB) (tid : Nat) (uid : Uid) :
    (get_transcript_by_id db tid = none →
      (validate_access_permissions db tid uid).logs =
        [.errTranscriptNotFound tid]) ∧
    (∀ t, get_transcript_by_id db tid = some t →
      get_video_by_id db t.video_id = none →
      (validate_access_permissions db tid uid).logs = []) ∧
    (∀ t v, get_transcript_by_id db tid = some t →
      get_video_by_id db t.video_id = some v →
      get_minutes db v.minutes_id = none →
      (validate_access_permissions db tid uid).logs =
        [.errMinutesNotFound v.minutes_id]) ∧
    (∀ t v m, get_transcript_by_id db tid = some t →
      get_video_by_id db t.video_id = some v →
      get_minutes db v.minutes_id = some m →
      pyStr m.user_id ≠ pyStr uid →
      (validate_access_permissions db tid uid).logs =
        [.errForbidden m.user_id uid]) := by
  refine ⟨fun h => ?_, fun t ht hv => ?_, fun t v ht hv hm => ?_,
          fun t v m ht hv hm hne => ?_⟩
  · simp [validate_access_permissions, h]
  · simp [validate_access_permissions, ht, hv]
  · simp [validate_access_permissions, ht, hv, hm]
  · rw [validate_full_chain db tid uid t v m ht hv hm, if_pos hne]

/-- Witness for the amended C8: all four branches on concrete
snapshots. -/
theorem claim_c8_amended_logging_witness :
    (validate_access_permissions dbEmpty 1 uidA).logs =
      [.errTranscriptNotFound 1] ∧
    (validate_access_permissions dbNoVideo 1 uidA).logs = [] ∧
    (validate_access_permissions dbNoMinutes 1 uidA).logs =
      [.errMinutesNotFound 20] ∧
    (validate_access_permissions dbFull 1 uidB).logs =
      [.errForbidden uidA uidB] := by
  refine ⟨(claim_c8_amended_logging dbEmpty 1 uidA).1 rfl, ?_, ?_, ?_⟩
  · exact (claim_c8_amended_logging dbNoVideo 1 uidA).2.1 trBudget rfl rfl
  · exact (claim_c8_amended_logging dbNoMinutes 1 uidA).2.2.1
      trBudget vid10 rfl rfl rfl
  · exact (claim_c8_amended_logging dbFull 1 uidB).2.2.2
      trBudget vid10 min20 rfl rfl rfl (by decide)

/-- C3: whenever access validation fails, the orchestrator sends no
completion request and performs no persistence write, and the external
snapshot is unchanged. -/
theorem claim_c3_no_effects_on_validation_failure
    (provider : ChatRequest → ProviderResult) (env : String → Option String)
    (dbV dbW : DB) (tid : Nat) (uid : Uid) (e : PyExc)
    (h : (validate_access_permissions dbV tid uid).result = .error e) :
    (process_summary_generation provider env dbV dbW tid uid).apiCalls = [] ∧
    (process_summary_generation provider env dbV dbW tid uid).writes = [] ∧
    (process_summary_generation provider env dbV dbW tid uid).db = dbW := by
  rcases process_run_inner_frame provider env dbV dbW tid uid with ⟨-, ha, hw, hd⟩
  rw [ha, hw, hd, run_inner_val_error provider env dbV dbW tid uid e h]
  exact ⟨rfl, rfl, rfl⟩

/-- Witness for C3: on the empty snapshot validation fails and the run
has no calls, no writes and an unchanged snapshot. -/
theorem claim_c3_witness :
    (process_summary_generation stubProvider envEmpty dbEmpty dbEmpty 1 uidA).apiCalls
      = [] ∧
    (process_summary_generation stubProvider envEmpty dbEmpty dbEmpty 1 uidA).writes
      = [] ∧
    (process_summary_generation stubProvider envEmpty dbEmpty dbEmpty 1 uidA).db
      = dbEmpty :=
  claim_c3_no_effects_on_validation_failure stubProvider envEmpty dbEmpty dbEmpty
    1 uidA (.http 404 detailTranscriptNotFound) rfl

/-- C4: when the provider call raises, exactly one completion request was
attempted, no write occurs, the snapshot is unchanged, and the run fails
with a 500 whose detail wraps (hence contains) the original message. -/
theorem claim_c4_provider_failure (provider : ChatRequest → ProviderResult)
    (env : String → Option String) (dbV dbW : DB) (tid : Nat) (uid : Uid)
    (ct em : String)
    (h : (validate_access_permissions dbV tid uid).result = .ok ())
    (hx : extract_content (get_transcript_by_id dbW tid) = .ok ct)
    (hp : provider (mkChatRequest env ct) = .exn em) :
    (process_summary_generation provider env dbV dbW tid uid).apiCalls =
      [mkChatRequest env ct] ∧
    (process_summary_generation provider env dbV dbW tid uid).writes = [] ∧
    (process_summary_generation provider env dbV dbW tid uid).db = dbW ∧
    (process_summary_generation provider env dbV dbW tid uid).result =
      .error (.http 500 (summaryErrorHead ++ em)) ∧
    (∃ pre, summaryErrorHead ++ em = pre ++ em) := by
  have hgen : generate_summary_content provider env ct =
      ⟨[mkChatRequest env ct], [.errGeneric (summaryErrorHead ++ em)],
       .error (.http 500 (summaryErrorHead ++ em))⟩ := by
    simp only [generate_summary_content, hp]
  have hri := run_inner_gen_error provider env dbV dbW tid uid ct
      (.http 500 (summaryErrorHead ++ em)) h hx (by rw [hgen])
  rcases process_run_inner_frame provider env dbV dbW tid uid with ⟨-, ha, hw, hd⟩
  refine ⟨?_, ?_, ?_, ?_, ⟨summaryErrorHead, rfl⟩⟩
  · rw [ha, hri, hgen]
  · rw [hw, hri]
  · rw [hd, hri]
  · exact (process_http_passthrough provider env dbV dbW tid uid 500
      (summaryErrorHead ++ em) (by rw [hri])).1

/-- Witness for C4: the raising provider stub on the concrete chain. -/
theorem claim_c4_witness :
    (process_summary_generation exnProvider envEmpty dbFull dbFull 1 uidA).apiCalls
      = [mkChatRequest envEmpty "Meeting about budget."] ∧
    (process_summary_generation exnProvider envEmpty dbFull dbFull 1 uidA).writes
      = [] ∧
    (process_summary_generation exnProvider envEmpty dbFull dbFull 1 uidA).db
      = dbFull ∧
    (process_summary_generation exnProvider envEmpty dbFull dbFull 1 uidA).result
      = .error (.http 500 (summaryErrorHead ++ "timeout")) ∧
    (∃ pre, summaryErrorHead ++ "timeout" = pre ++ "timeout") :=
  claim_c4_provider_failure exnProvider envEmpty dbFull dbFull 1 uidA
    "Meeting about budget." "timeout" rfl rfl rfl

/-- C5: `HTTPException` failures of validation or of generation pass
through the orchestrator with status and detail unchanged; a non-domain
exception inside the body is logged and re-raised as a 500 carrying the
original message in its detail; no raw non-domain exception ever escapes
the orchestrator. -/
theorem claim_c5_error_propagation (provider : ChatRequest → ProviderResult)
    (env : String → Option String) (dbV dbW : DB) (tid : Nat) (uid : Uid) :
    (∀ s d, (validate_access_permissions dbV tid uid).result =
        .error (.http s d) →
      (process_summary_generation provider env dbV dbW tid uid).result =
        .error (.http s d)) ∧
    (∀ ct s d, (validate_access_permissions dbV tid uid).result = .ok () →
      extract_content (get_transcript_by_id dbW tid) = .ok ct →
      (generate_summary_content provider env ct).result = .error (.http s d) →
      (process_summary_generation provider env dbV dbW tid uid).result =
        .error (.http s d)) ∧
    (∀ m, (validate_access_permissions dbV tid uid).result = .ok () →
      extract_content (get_transcript_by_id dbW tid) = .error (.other m) →
      (process_summary_generation provider env dbV dbW tid uid).result =
          .error (.http 500 (summaryErrorHead ++ m)) ∧
        .errGeneric (summaryErrorHead ++ m) ∈
          (process_summary_generation provider env dbV dbW tid uid).logs ∧
        ∃ pre, summaryErrorHead ++ m = pre ++ m) ∧
    (∀ m, (process_summary_generation provider env dbV dbW tid uid).result ≠
      .error (.other m)) := by
  refine ⟨fun s d h => ?_, fun ct s d h hx hg => ?_, fun m h hx => ?_, fun m => ?_⟩
  · exact (process_http_passthrough provider env dbV dbW tid uid s d
      (by rw [run_inner_val_error provider env dbV dbW tid uid _ h])).1
  · exact (process_http_passthrough provider env dbV dbW tid uid s d
      (by rw [run_inner_gen_error provider env dbV dbW tid uid ct _ h hx hg])).1
  · have hri := run_inner_extract_error provider env dbV dbW tid uid (.other m) h hx
    have hp := process_other_wrapped provider env dbV dbW tid uid m (by rw [hri])
    refine ⟨hp.1, ?_, ⟨summaryErrorHead, rfl⟩⟩
    rw [hp.2]
    simp
  · cases hr : (run_inner provider env dbV dbW tid uid).result with
    | ok s =>
        rw [process_ok_result provider env dbV dbW tid uid s hr]
        simp
    | error e =>
        cases e with
        | http s d =>
            rw [(process_http_passthrough provider env dbV dbW tid uid s d hr).1]
            simp
        | other m2 =>
            rw [(process_other_wrapped provider env dbV dbW tid uid m2 hr).1]
            simp

/-- Witness for C5: each clause exercised on concrete snapshots — a
validation 404 passing through, a provider 500 passing through, a
vanished transcript reclassified as a 500, and a run whose result is not
a raw exception. -/
theorem claim_c5_witness :
    (process_summary_generation stubProvider envEmpty dbEmpty dbEmpty 1 uidA).result
      = .error (.http 404 detailTranscriptNotFound) ∧
    (process_summary_generation exnProvider envEmpty dbFull dbFull 1 uidA).result
      = .error (.http 500 (summaryErrorHead ++ "timeout")) ∧
    ((process_summary_generation stubProvider envEmpty dbFull dbEmpty 1 uidA).result
        = .error (.http 500
            (summaryErrorHead ++ "NoneType object has no attribute text")) ∧
      .errGeneric (summaryErrorHead ++ "NoneType object has no attribute text") ∈
        (process_summary_generation stubProvider envEmpty dbFull dbEmpty 1 uidA).logs ∧
      ∃ pre, summaryErrorHead ++ "NoneType object has no attribute text" =
        pre ++ "NoneType object has no attribute text") ∧
    (process_summary_generation stubProvider envEmpty dbFull dbFull 1 uidA).result ≠
      .error (.other "boom") := by
  refine ⟨?_, ?_, ?_, ?_⟩
  · exact (claim_c5_error_propagation stubProvider envEmpty dbEmpty dbEmpty 1 uidA).1
      404 detailTranscriptNotFound rfl
  · exact (claim_c5_error_propagation exnProvider envEmpty dbFull dbFull 1 uidA).2.1
      "Meeting about budget." 500 (summaryErrorHead ++ "timeout") rfl rfl rfl
  · exact (claim_c5_error_propagation stubProvider envEmpty dbFull dbEmpty 1 uidA).2.2.1
      "NoneType object has no attribute text" rfl rfl
  · exact (claim_c5_error_propagation stubProvider envEmpty dbFull dbFull 1 uidA).2.2.2
      "boom"

/-- C6: the generator sends exactly one completion request — the fixed
system instruction, the user message wrapping the transcript text,
temperature 0.7 and an output ceiling of 1000 tokens — and when the
response has a first choice it returns that choice's text content. -/
theorem claim_c6_request_shape (provider : ChatRequest → ProviderResult)
    (env : String → Option String) (transcript_content : String) :
    (generate_summary_content provider env transcript_content).apiCalls =
      [mkChatRequest env transcript_content] ∧
    mkChatRequest env transcript_content =
      ⟨getenv env "AZURE_OPENAI_DEPLOYMENT_CHAT" "gpt-4.1",
       [("system", systemInstruction),
        ("user", userInstructionHead ++ transcript_content)],
       7/10, 1000⟩ ∧
    (∀ c cs, provider (mkChatRequest env transcript_content) = .ok (c :: cs) →
      (generate_summary_content provider env transcript_content).result =
        .ok c.message.content) := by
  refine ⟨?_, rfl, fun c cs hp => ?_⟩
  · rcases hp : provider (mkChatRequest env transcript_content) with cs | e
    · cases cs <;> simp [generate_summary_content, hp]
    · simp [generate_summary_content, hp]
  · simp [generate_summary_content, hp]

/-- Witness for C6: the stubbed provider's single choice is returned. -/
theorem claim_c6_witness :
    (generate_summary_content stubProvider envEmpty "hello").result =
      .ok budgetSummary :=
  (claim_c6_request_shape stubProvider envEmpty "hello").2.2 ⟨⟨budgetSummary⟩⟩ [] rfl

/-- C7: on a fully successful run the orchestrator writes exactly
(transcript id, generated text) through the creation function and returns
the persisted record's content, which equals the generated text; in
particular the spec's concrete budget scenario persists and returns
exactly the stubbed summary. -/
theorem claim_c7_success_persists (provider : ChatRequest → ProviderResult)
    (env : String → Option String) (dbV dbW : DB) (tid : Nat) (uid : Uid)
    (ct : String) (c : Choice) (cs : List Choice)
    (h : (validate_access_permissions dbV tid uid).result = .ok ())
    (hx : extract_content (get_transcript_by_id dbW tid) = .ok ct)
    (hp : provider (mkChatRequest env ct) = .ok (c :: cs)) :
    ((process_summary_generation provider env dbV dbW tid uid).writes =
        [(tid, c.message.content)] ∧
      (process_summary_generation provider env dbV dbW tid uid).db =
        (create_summary dbW tid c.message.content).2 ∧
      (process_summary_generation provider env dbV dbW tid uid).result =
        .ok c.message.content) ∧
    ((process_summary_generation stubProvider envEmpty dbFull dbFull 1 uidA).writes =
        [(1, budgetSummary)] ∧
      (process_summary_generation stubProvider envEmpty dbFull dbFull 1 uidA).result =
        .ok budgetSummary) := by
  constructor
  · have hgen : (generate_summary_content provider env ct).result =
        .ok c.message.content := by
      simp [generate_summary_content, hp]
    have hri := run_inner_success provider env dbV dbW tid uid ct
      c.message.content h hx hgen
    rcases process_run_inner_frame provider env dbV dbW tid uid with ⟨-, -, hw, hd⟩
    refine ⟨?_, ?_, ?_⟩
    · rw [hw, hri]
    · rw [hd, hri]
    · have hres := process_ok_result provider env dbV dbW tid uid
        ((create_summary dbW tid c.message.content).1.content) (by rw [hri])
      rw [hres, create_summary_content_eq]
  · exact ⟨rfl, rfl⟩

/-- Witness for C7: the spec's concrete budget scenario, via the general
statement instantiated at the stubbed provider. -/
theorem claim_c7_witness :
    (process_summary_generation stubProvider envEmpty dbFull dbFull 1 uidA).writes =
      [(1, budgetSummary)] ∧
    (process_summary_generation stubProvider envEmpty dbFull dbFull 1 uidA).result =
      .ok budgetSummary :=
  (claim_c7_success_persists stubProvider envEmpty dbFull dbFull 1 uidA
    "Meeting about budget." ⟨⟨budgetSummary⟩⟩ [] rfl rfl rfl).2

/-- C9: the validator is read-only — a run aborted by validation leaves
the snapshot untouched — and across the whole module the transcripts,
videos and minutes tables are never changed: either a run writes nothing
and the snapshot is unchanged, or it performs exactly the one
`create_summary` write of the persistence step, which touches only the
summaries table. -/
theorem claim_c9_readonly_frame (provider : ChatRequest → ProviderResult)
    (env : String → Option String) (dbV dbW : DB) (tid : Nat) (uid : Uid) :
    (process_summary_generation provider env dbV dbW tid uid).db.transcripts =
      dbW.transcripts ∧
    (process_summary_generation provider env dbV dbW tid uid).db.videos =
      dbW.videos ∧
    (process_summary_generation provider env dbV dbW tid uid).db.minutes =
      dbW.minutes ∧
    (∀ e, (validate_access_permissions dbV tid uid).result = .error e →
      (process_summary_generation provider env dbV dbW tid uid).db = dbW) ∧
    ((process_summary_generation provider env dbV dbW tid uid).writes = [] ∧
        (process_summary_generation provider env dbV dbW tid uid).db = dbW ∨
      ∃ sc, (process_summary_generation provider env dbV dbW tid uid).writes =
          [(tid, sc)] ∧
        (process_summary_generation provider env dbV dbW tid uid).db =
          (create_summary dbW tid sc).2) := by
  rcases process_run_inner_frame provider env dbV dbW tid uid with ⟨-, -, hw, hd⟩
  rcases hv : (validate_access_permissions dbV tid uid).result with e | u
  · have hri := run_inner_val_error provider env dbV dbW tid uid e hv
    rw [hw, hd, hri]
    exact ⟨rfl, rfl, rfl, fun _ _ => rfl, .inl ⟨rfl, rfl⟩⟩
  · cases u
    rcases hx : extract_content (get_transcript_by_id dbW tid) with e2 | ct
    · have hri := run_inner_extract_error provider env dbV dbW tid uid e2 hv hx
      rw [hw, hd, hri]
      exact ⟨rfl, rfl, rfl, fun e he => by simp [hv] at he, .inl ⟨rfl, rfl⟩⟩
    · rcases hg : (generate_summary_content provider env ct).result with e2 | sc
      · have hri := run_inner_gen_error provider env dbV dbW tid uid ct e2 hv hx hg
        rw [hw, hd, hri]
        exact ⟨rfl, rfl, rfl, fun e he => by simp [hv] at he, .inl ⟨rfl, rfl⟩⟩
      · have hri := run_inner_success provider env dbV dbW tid uid ct sc hv hx hg
        rw [hw, hd, hri]
        rcases create_summary_frame dbW tid sc with ⟨hf1, hf2, hf3⟩
        exact ⟨hf1, hf2, hf3, fun e he => by simp [hv] at he,
          .inr ⟨sc, rfl, rfl⟩⟩

/-- Witness for C9: a run aborted by validation leaves the empty snapshot
exactly as it was. -/
theorem claim_c9_witness :
    (process_summary_generation stubProvider envEmpty dbEmpty dbEmpty 1 uidA).db =
      dbEmpty :=
  (claim_c9_readonly_frame stubProvider envEmpty dbEmpty dbEmpty 1 uidA).2.2.2.1
    (.http 404 detailTranscriptNotFound) rfl

/-- C10: when validation succeeded but the re-fetch finds no transcript,
the run fails with a generic 500 — not the 404 that the same absence
produces during validation — and performs no completion call and no
write. -/
theorem claim_c10_vanished_transcript (provider : ChatRequest → ProviderResult)
    (env : String → Option String) (dbV dbW : DB) (tid : Nat) (uid : Uid)
    (h : (validate_access_permissions dbV tid uid).result = .ok ())
    (hw : get_transcript_by_id dbW tid = none) :
    (process_summary_generation provider env dbV dbW tid uid).result =
      .error (.http 500
        (summaryErrorHead ++ "NoneType object has no attribute text")) ∧
    (∀ d, (process_summary_generation provider env dbV dbW tid uid).result ≠
      .error (.http 404 d)) ∧
    (process_summary_generation provider env dbV dbW tid uid).apiCalls = [] ∧
    (process_summary_generation provider env dbV dbW tid uid).writes = [] ∧
    (process_summary_generation provider env dbV dbW tid uid).db = dbW := by
  have hx : extract_content (get_transcript_by_id dbW tid) =
      .error (.other "NoneType object has no attribute text") := by
    rw [hw]
    rfl
  have hri := run_inner_extract_error provider env dbV dbW tid uid _ h hx
  have hres := (process_other_wrapped provider env dbV dbW tid uid _
    (by rw [hri])).1
  rcases process_run_inner_frame provider env dbV dbW tid uid with ⟨-, ha, hwts, hd⟩
  refine ⟨hres, fun d hcontra => ?_, ?_, ?_, ?_⟩
  · rw [hres] at hcontra
    simp at hcontra
  · rw [ha, hri]
  · rw [hwts, hri]
  · rw [hd, hri]

/-- Witness for C10: validation passes on the full snapshot, the re-fetch
runs against the empty snapshot. -/
theorem claim_c10_witness :
    (process_summary_generation stubProvider envEmpty dbFull dbEmpty 1 uidA).result =
      .error (.http 500
        (summaryErrorHead ++ "NoneType object has no attribute text")) ∧
    (process_summary_generation stubProvider envEmpty dbFull dbEmpty 1 uidA).apiCalls
      = [] ∧
    (process_summary_generation stubProvider envEmpty dbFull dbEmpty 1 uidA).writes
      = [] := by
  have h := claim_c10_vanished_transcript stubProvider envEmpty dbFull dbEmpty
    1 uidA rfl rfl
  exact ⟨h.1, h.2.2.1, h.2.2.2.1⟩
